import Mathlib

/-!
Verification of the VibeHub gateway core (src-tauri/src/gateway) against its
specification.  The Rust sources are shallowly embedded: pure data is mirrored
by Lean structures, the stateful `StatsManager::record_request` becomes a pure
state-transformer on `GatewayStats`, and the proxy fallback loop of
`handle_request` becomes a recursive function over the candidate list paired
with the outcome each upstream attempt would produce.  Machine integers are
modelled by `Nat` (no arithmetic here ever approaches the `u64`/`u32` bounds
in the statements below, and the Rust code only adds and divides), and the
`f64` cost field is modelled by `ℚ`; the statements proved never depend on
floating-point rounding, only on which formula the code uses.
-/

namespace VibeHub

/-! ## Data model (gateway/config.rs and gateway/stats.rs) -/

/-- `Provider` from gateway/config.rs.  The `model_mapping` table is carried
as an association list; it is never read by the gateway core. -/
structure Provider where
  id : String
  name : String
  base_url : String
  api_key : String
  model_mapping : List (String × String)
  enabled : Bool
deriving DecidableEq

/-- `GatewayConfig` from gateway/config.rs. -/
structure GatewayConfig where
  port : Nat
  enabled : Bool
  providers : List Provider
  fallback_enabled : Bool
deriving DecidableEq

/-- The `Default` impl for `GatewayConfig` in gateway/config.rs. -/
def GatewayConfig.defaultConfig : GatewayConfig :=
  { port := 12345, enabled := true, providers := [], fallback_enabled := true }

/-- `RequestLog` from gateway/stats.rs.  `cost : f64` is modelled by `ℚ`. -/
structure RequestLog where
  id : String
  timestamp : Nat
  provider : String
  model : String
  status : Nat
  duration_ms : Nat
  input_tokens : Nat
  output_tokens : Nat
  cost : ℚ
  path : String
  client_agent : String
deriving DecidableEq

/-- `HourlyStat` from gateway/stats.rs. -/
structure HourlyStat where
  timestamp : Nat
  requests : Nat
  input_tokens : Nat
  output_tokens : Nat
  cost : ℚ
deriving DecidableEq

/-- `GatewayStats` from gateway/stats.rs.  The `VecDeque` of recent requests
is modelled by a list whose head is the deque front. -/
structure GatewayStats where
  total_requests : Nat
  total_input_tokens : Nat
  total_output_tokens : Nat
  total_cost : ℚ
  cache_hits : Nat
  cache_misses : Nat
  recent_requests : List RequestLog
  hourly_activity : List HourlyStat
deriving DecidableEq

/-- The derived `Default` for `GatewayStats`: all counters zero, both
buffers empty. -/
def GatewayStats.defaultStats : GatewayStats :=
  { total_requests := 0, total_input_tokens := 0, total_output_tokens := 0,
    total_cost := 0, cache_hits := 0, cache_misses := 0,
    recent_requests := [], hourly_activity := [] }

/-! ## StatsManager.record_request (gateway/stats.rs, lines 84-140)

The Rust method mutates the aggregate behind a mutex; here it is the pure
transformer `record_request`.  Disk persistence at the end of the Rust method
does not change the in-memory aggregate and is dropped from the state. -/

/-- The hour-aligned bucket: `(log.timestamp / 3600) * 3600` (stats.rs:99). -/
def bucket (t : Nat) : Nat := t / 3600 * 3600

/-- `stats.recent_requests.push_front(log)` followed by
`if len > 50 { pop_back() }` (stats.rs:93-96). -/
def pushRecent (log : RequestLog) (recent : List RequestLog) : List RequestLog :=
  let r := log :: recent
  if r.length > 50 then r.dropLast else r

/-- Accumulating a log into the hourly entry it falls in (stats.rs:100-105). -/
def accumHourly (last : HourlyStat) (log : RequestLog) : HourlyStat :=
  { last with
    requests := last.requests + 1,
    input_tokens := last.input_tokens + log.input_tokens,
    output_tokens := last.output_tokens + log.output_tokens,
    cost := last.cost + log.cost }

/-- A fresh hourly entry for a log (stats.rs:107-113 and 116-122). -/
def newHourly (log : RequestLog) : HourlyStat :=
  { timestamp := bucket log.timestamp, requests := 1,
    input_tokens := log.input_tokens, output_tokens := log.output_tokens,
    cost := log.cost }

/-- The hourly update of stats.rs:99-123: if the *last* existing entry has the
log's bucket, accumulate into it in place, otherwise append a fresh entry. -/
def mergeHourly (log : RequestLog) (hourly : List HourlyStat) : List HourlyStat :=
  match hourly.getLast? with
  | some last =>
      if last.timestamp = bucket log.timestamp then
        hourly.dropLast ++ [accumHourly last log]
      else
        hourly ++ [newHourly log]
  | none => [newHourly log]

/-- `if hourly_activity.len() > 24 { hourly_activity.remove(0) }`
(stats.rs:126-128). -/
def trimHourly (hourly : List HourlyStat) : List HourlyStat :=
  if hourly.length > 24 then hourly.drop 1 else hourly

/-- `StatsManager::record_request` (stats.rs:84-140) as a pure transformer:
increments the four running totals unconditionally, pushes the log to the
front of the recency buffer trimming past 50, and updates/trims the hourly
buckets. -/
def record_request (s : GatewayStats) (log : RequestLog) : GatewayStats :=
  { total_requests := s.total_requests + 1,
    total_input_tokens := s.total_input_tokens + log.input_tokens,
    total_output_tokens := s.total_output_tokens + log.output_tokens,
    total_cost := s.total_cost + log.cost,
    cache_hits := s.cache_hits,
    cache_misses := s.cache_misses,
    recent_requests := pushRecent log s.recent_requests,
    hourly_activity := trimHourly (mergeHourly log s.hourly_activity) }

/-- A sequence of `record_request` calls. -/
def recordAll (s : GatewayStats) (logs : List RequestLog) : GatewayStats :=
  logs.foldl record_request s

/-- The bucket timestamps currently in the hourly buffer. -/
def hourlyTimes (s : GatewayStats) : List Nat :=
  s.hourly_activity.map HourlyStat.timestamp

lemma recordAll_cons (s : GatewayStats) (l : RequestLog) (ls : List RequestLog) :
    recordAll s (l :: ls) = recordAll (record_request s l) ls := rfl

lemma recordAll_nil (s : GatewayStats) : recordAll s [] = s := rfl

/-! ### Running totals (claim C8) -/

lemma recordAll_total_requests (logs : List RequestLog) : ∀ s : GatewayStats,
    (recordAll s logs).total_requests = s.total_requests + logs.length := by
  induction logs with
  | nil => intro s; simp [recordAll]
  | cons l ls ih =>
      intro s
      rw [recordAll_cons, ih]
      simp [record_request]
      omega

lemma recordAll_total_input (logs : List RequestLog) : ∀ s : GatewayStats,
    (recordAll s logs).total_input_tokens =
      s.total_input_tokens + (logs.map RequestLog.input_tokens).sum := by
  induction logs with
  | nil => intro s; simp [recordAll]
  | cons l ls ih =>
      intro s
      rw [recordAll_cons, ih]
      simp [record_request]
      omega

lemma recordAll_total_output (logs : List RequestLog) : ∀ s : GatewayStats,
    (recordAll s logs).total_output_tokens =
      s.total_output_tokens + (logs.map RequestLog.output_tokens).sum := by
  induction logs with
  | nil => intro s; simp [recordAll]
  | cons l ls ih =>
      intro s
      rw [recordAll_cons, ih]
      simp [record_request]
      omega

lemma recordAll_total_cost (logs : List RequestLog) : ∀ s : GatewayStats,
    (recordAll s logs).total_cost = s.total_cost + (logs.map RequestLog.cost).sum := by
  induction logs with
  | nil => intro s; simp [recordAll]
  | cons l ls ih =>
      intro s
      rw [recordAll_cons, ih]
      simp [record_request]
      ring

/-! ### Recency buffer (claim C7) -/

lemma pushRecent_of_le (log : RequestLog) (recent : List RequestLog)
    (h : recent.length ≤ 50) :
    pushRecent log recent = (log :: recent).take 50 := by
  unfold pushRecent
  by_cases h50 : (log :: recent).length > 50
  · have hlen : recent.length = 50 := by simp at h50; omega
    simp only [h50, if_pos]
    rw [List.dropLast_eq_take]
    simp [hlen]
  · simp only [h50, if_neg, not_false_iff]
    rw [List.take_of_length_le]
    simp at h50 ⊢
    omega

lemma pushRecent_le (log : RequestLog) (recent : List RequestLog)
    (h : recent.length ≤ 50) :
    (pushRecent log recent).length ≤ 50 := by
  rw [pushRecent_of_le log recent h]
  simp [List.length_take]

lemma recordAll_recent_le (logs : List RequestLog) : ∀ s : GatewayStats,
    s.recent_requests.length ≤ 50 →
    (recordAll s logs).recent_requests.length ≤ 50 := by
  induction logs with
  | nil => intro s h; simpa [recordAll] using h
  | cons l ls ih =>
      intro s h
      rw [recordAll_cons]
      exact ih _ (pushRecent_le l s.recent_requests h)


/-! ### Hourly buckets (claim C3) -/

lemma mergeHourly_length_le (log : RequestLog) (hourly : List HourlyStat) :
    (mergeHourly log hourly).length ≤ hourly.length + 1 := by
  rcases List.eq_nil_or_concat hourly with rfl | ⟨l', a, rfl⟩
  · have h : mergeHourly log [] = [newHourly log] := rfl
    simp [h]
  · unfold mergeHourly
    simp only [List.concat_eq_append, List.getLast?_concat]
    by_cases hb : a.timestamp = bucket log.timestamp <;>
      simp [hb, List.dropLast_concat]

lemma trimHourly_length_le (hourly : List HourlyStat) (h : hourly.length ≤ 25) :
    (trimHourly hourly).length ≤ 24 := by
  unfold trimHourly
  split
  · simp only [List.length_drop]
    omega
  · omega

lemma record_request_hourly_le (s : GatewayStats) (log : RequestLog)
    (h : s.hourly_activity.length ≤ 24) :
    (record_request s log).hourly_activity.length ≤ 24 := by
  have hm := mergeHourly_length_le log s.hourly_activity
  exact trimHourly_length_le _ (by omega)

lemma recordAll_hourly_le (logs : List RequestLog) : ∀ s : GatewayStats,
    s.hourly_activity.length ≤ 24 →
    (recordAll s logs).hourly_activity.length ≤ 24 := by
  induction logs with
  | nil => intro s h; simpa [recordAll] using h
  | cons l ls ih =>
      intro s h
      rw [recordAll_cons]
      exact ih _ (record_request_hourly_le s l h)

/-- On overflow the hourly trim drops the oldest entry from the front. -/
lemma trimHourly_drops_front (hourly : List HourlyStat) (h : 24 < hourly.length) :
    trimHourly hourly = hourly.drop 1 := by
  unfold trimHourly
  simp [h]

lemma mergeHourly_chain_bound (log : RequestLog) (hourly : List HourlyStat) (b : Nat)
    (h1 : (hourly.map HourlyStat.timestamp).Chain' (· < ·))
    (h2 : ∀ t ∈ hourly.map HourlyStat.timestamp, t ≤ b)
    (hb : b ≤ bucket log.timestamp) :
    ((mergeHourly log hourly).map HourlyStat.timestamp).Chain' (· < ·) ∧
    ∀ t ∈ (mergeHourly log hourly).map HourlyStat.timestamp, t ≤ bucket log.timestamp := by
  rcases List.eq_nil_or_concat hourly with rfl | ⟨l', a, rfl⟩
  · have h : mergeHourly log [] = [newHourly log] := rfl
    simp [h, newHourly]
  · simp only [List.concat_eq_append] at h1 h2 ⊢
    unfold mergeHourly
    rw [List.getLast?_concat]
    by_cases hts : a.timestamp = bucket log.timestamp
    · -- accumulate into the last entry: the bucket timestamps are unchanged
      simp only [hts, if_pos, List.dropLast_concat]
      have hmap : (l' ++ [accumHourly a log]).map HourlyStat.timestamp =
          (l' ++ [a]).map HourlyStat.timestamp := by
        simp [accumHourly]
      rw [hmap]
      refine ⟨h1, fun t ht => ?_⟩
      have := h2 t ht
      omega
    · -- append a fresh entry at the end
      simp only [hts, if_neg, not_false_iff]
      constructor
      · rw [List.map_append]
        rw [List.chain'_append]
        refine ⟨h1, by simp [newHourly], ?_⟩
        intro x hx y hy
        simp [newHourly] at hy
        subst hy
        rw [List.getLast?_map, List.getLast?_concat] at hx
        simp at hx
        subst hx
        have ha : a.timestamp ≤ b := h2 _ (by simp)
        omega
      · intro t ht
        rw [List.map_append] at ht
        rcases List.mem_append.mp ht with h | h
        · have := h2 t h
          omega
        · simp [newHourly] at h
          omega

lemma trimHourly_chain_bound (hourly : List HourlyStat) (c : Nat)
    (h1 : (hourly.map HourlyStat.timestamp).Chain' (· < ·))
    (h2 : ∀ t ∈ hourly.map HourlyStat.timestamp, t ≤ c) :
    ((trimHourly hourly).map HourlyStat.timestamp).Chain' (· < ·) ∧
    ∀ t ∈ (trimHourly hourly).map HourlyStat.timestamp, t ≤ c := by
  unfold trimHourly
  split
  · constructor
    · rw [List.map_drop, List.drop_one]
      exact h1.tail
    · intro t ht
      rw [List.map_drop] at ht
      exact h2 t (List.mem_of_mem_drop ht)
  · exact ⟨h1, h2⟩

lemma record_request_chain_bound (s : GatewayStats) (log : RequestLog) (b : Nat)
    (h1 : (hourlyTimes s).Chain' (· < ·))
    (h2 : ∀ t ∈ hourlyTimes s, t ≤ b)
    (hb : b ≤ bucket log.timestamp) :
    (hourlyTimes (record_request s log)).Chain' (· < ·) ∧
    ∀ t ∈ hourlyTimes (record_request s log), t ≤ bucket log.timestamp := by
  have hm := mergeHourly_chain_bound log s.hourly_activity b h1 h2 hb
  exact trimHourly_chain_bound _ _ hm.1 hm.2

lemma bucket_mono {t t' : Nat} (h : t ≤ t') : bucket t ≤ bucket t' := by
  unfold bucket
  exact Nat.mul_le_mul_right _ (Nat.div_le_div_right h)

lemma recordAll_chain_bound (logs : List RequestLog) : ∀ (s : GatewayStats) (b : Nat),
    List.Chain' (fun a c : RequestLog => a.timestamp ≤ c.timestamp) logs →
    (∀ r, logs.head? = some r → b ≤ bucket r.timestamp) →
    (hourlyTimes s).Chain' (· < ·) →
    (∀ t ∈ hourlyTimes s, t ≤ b) →
    (hourlyTimes (recordAll s logs)).Chain' (· < ·) := by
  induction logs with
  | nil => intro s b _ _ h1 _; simpa [recordAll] using h1
  | cons l ls ih =>
      intro s b hmono hhead h1 h2
      rw [recordAll_cons]
      have hb : b ≤ bucket l.timestamp := hhead l rfl
      have step := record_request_chain_bound s l b h1 h2 hb
      refine ih (record_request s l) (bucket l.timestamp) hmono.tail ?_ step.1 step.2
      intro r hr
      cases ls with
      | nil => simp at hr
      | cons r' rs =>
          simp at hr
          subst hr
          exact bucket_mono (List.chain'_cons.mp hmono).1

/-- A concrete log at timestamp `t`, with the inessential fields fixed. -/
def logAt (t : Nat) : RequestLog :=
  { id := "", timestamp := t, provider := "p", model := "unknown", status := 200,
    duration_ms := 0, input_tokens := 0, output_tokens := 0, cost := 0,
    path := "/", client_agent := "unknown" }

/-! ### Claim theorems over the stats component -/

/-- C3 (counterexample): the claim that *every* pair of recorded logs falling
in the same 3600-second bucket merges into one hourly entry is false: the code
only compares against the last entry, so recording logs at timestamps 0, 3600
and 10 (second and third log out of timestamp order) yields hourly bucket
timestamps `[0, 3600, 0]` — two distinct entries for bucket 0. -/
theorem hourly_merge_counterexample :
    ¬ (hourlyTimes (recordAll GatewayStats.defaultStats
        [logAt 0, logAt 3600, logAt 10])).Nodup ∧
    hourlyTimes (recordAll GatewayStats.defaultStats
        [logAt 0, logAt 3600, logAt 10]) = [0, 3600, 0] := by decide

/-- C3 (amended): starting from the empty aggregate, `hourly_activity` never
exceeds 24 entries and, on overflow, the trim drops the oldest entry from the
front; and provided the logs are recorded in nondecreasing timestamp order,
any two logs falling in the same 3600-second-aligned bucket merge into a
single hourly entry — the bucket timestamps in `hourly_activity` are pairwise
distinct. -/
theorem hourly_activity_bounded_and_merged (logs : List RequestLog)
    (hmono : List.Chain' (fun a c : RequestLog => a.timestamp ≤ c.timestamp) logs) :
    (recordAll GatewayStats.defaultStats logs).hourly_activity.length ≤ 24 ∧
    (hourlyTimes (recordAll GatewayStats.defaultStats logs)).Nodup ∧
    (∀ hourly : List HourlyStat, 24 < hourly.length →
      trimHourly hourly = hourly.drop 1) := by
  refine ⟨recordAll_hourly_le logs _ (by simp [GatewayStats.defaultStats]), ?_,
    trimHourly_drops_front⟩
  have hchain := recordAll_chain_bound logs GatewayStats.defaultStats 0 hmono
    (fun r _ => Nat.zero_le _)
    (by simp [hourlyTimes, GatewayStats.defaultStats])
    (by simp [hourlyTimes, GatewayStats.defaultStats])
  have hpair : (hourlyTimes (recordAll GatewayStats.defaultStats logs)).Pairwise (· < ·) :=
    List.chain'_iff_pairwise.mp hchain
  exact hpair.imp (fun h => Nat.ne_of_lt h)

theorem hourly_activity_bounded_and_merged_witness :
    (recordAll GatewayStats.defaultStats [logAt 5, logAt 3700]).hourly_activity.length ≤ 24 ∧
    (hourlyTimes (recordAll GatewayStats.defaultStats [logAt 5, logAt 3700])).Nodup :=
  ⟨(hourly_activity_bounded_and_merged [logAt 5, logAt 3700]
      (by simp [List.chain'_cons, List.chain'_singleton, logAt])).1,
   (hourly_activity_bounded_and_merged [logAt 5, logAt 3700]
      (by simp [List.chain'_cons, List.chain'_singleton, logAt])).2.1⟩

/-- C7: as long as the buffer held at most 50 entries, a `record_request`
leaves `recent_requests` equal to the new log consed in front with everything
past position 50 (the oldest, at the tail) dropped; so the buffer stays within
50 entries and the newest log is at index 0. -/
theorem recent_requests_invariant (s : GatewayStats) (log : RequestLog)
    (h : s.recent_requests.length ≤ 50) :
    (record_request s log).recent_requests = (log :: s.recent_requests).take 50 ∧
    (record_request s log).recent_requests.length ≤ 50 ∧
    (record_request s log).recent_requests.head? = some log ∧
    (∀ logs : List RequestLog,
      (recordAll GatewayStats.defaultStats logs).recent_requests.length ≤ 50) := by
  have hp : (record_request s log).recent_requests = (log :: s.recent_requests).take 50 :=
    pushRecent_of_le log s.recent_requests h
  refine ⟨hp, ?_, ?_, fun logs => recordAll_recent_le logs _ (by simp [GatewayStats.defaultStats])⟩
  · rw [hp]
    simp [List.length_take]
  · rw [hp]
    rfl

theorem recent_requests_invariant_witness :
    (record_request GatewayStats.defaultStats (logAt 0)).recent_requests =
      (logAt 0 :: GatewayStats.defaultStats.recent_requests).take 50 ∧
    (record_request GatewayStats.defaultStats (logAt 0)).recent_requests.length ≤ 50 ∧
    (record_request GatewayStats.defaultStats (logAt 0)).recent_requests.head? =
      some (logAt 0) :=
  ⟨(recent_requests_invariant GatewayStats.defaultStats (logAt 0) (by decide)).1,
   (recent_requests_invariant GatewayStats.defaultStats (logAt 0) (by decide)).2.1,
   (recent_requests_invariant GatewayStats.defaultStats (logAt 0) (by decide)).2.2.1⟩

/-- C8: a sequence of M `record_request` calls increases `total_requests` by
exactly M, whatever the logs' status codes; and every log unconditionally adds
its token counts and cost to the running totals. -/
theorem totals_increment_per_record (s : GatewayStats) (logs : List RequestLog) :
    (recordAll s logs).total_requests = s.total_requests + logs.length ∧
    (recordAll s logs).total_input_tokens =
      s.total_input_tokens + (logs.map RequestLog.input_tokens).sum ∧
    (recordAll s logs).total_output_tokens =
      s.total_output_tokens + (logs.map RequestLog.output_tokens).sum ∧
    (recordAll s logs).total_cost = s.total_cost + (logs.map RequestLog.cost).sum :=
  ⟨recordAll_total_requests logs s, recordAll_total_input logs s,
   recordAll_total_output logs s, recordAll_total_cost logs s⟩

/-! ## Config loading and saving (gateway/config.rs, gateway/mod.rs)

File-system reads are modelled by a `FileState`: the file can be absent,
present but unreadable, or present with some content.  JSON deserialization
(`serde_json::from_str`) is kept abstract as a `parse` function returning
`none` exactly on unparsable content. -/

/-- The state of a file on disk, as the loaders observe it. -/
inductive FileState where
  | absent
  | unreadable
  | content (s : String)
deriving DecidableEq

/-- `GatewayConfig::load` (config.rs:37-43): a missing file yields the
default config; a read failure or a parse failure is returned as an error,
with the `anyhow` context strings used by the code. -/
def GatewayConfig.load (parse : String → Option GatewayConfig) :
    FileState → Except String GatewayConfig
  | .absent => .ok GatewayConfig.defaultConfig
  | .unreadable => .error "Failed to read gateway config"
  | .content s =>
      match parse s with
      | some c => .ok c
      | none => .error "Failed to parse gateway config"

/-- The `save_gateway_config` command (mod.rs:23-34): the in-memory config is
overwritten with the new value first, then the disk write is attempted and
its outcome (`disk`, the environment's response to `GatewayConfig::save`)
propagated.  Returns the new in-memory value and the command's result. -/
def save_gateway_config (mem new : GatewayConfig) (disk : Except String Unit) :
    GatewayConfig × Except String Unit :=
  let updated := new
  match disk with
  | .ok _ => (updated, .ok ())
  | .error e => (updated, .error e)

/-- `StatsManager::new` (stats.rs:63-78): a missing file, an unreadable file
and unparsable content all silently produce the default aggregate; the
constructor cannot fail. -/
def StatsManager.new (parse : String → Option GatewayStats) :
    FileState → GatewayStats
  | .absent => GatewayStats.defaultStats
  | .unreadable => GatewayStats.defaultStats
  | .content s => (parse s).getD GatewayStats.defaultStats

/-- C4: `GatewayConfig::load` surfaces unreadable or unparsable config files
as errors — it never silently substitutes the default — and an absent file
yields the documented default (port 12345, enabled, no providers, fallback
enabled). -/
theorem config_load_contract (parse : String → Option GatewayConfig) :
    (GatewayConfig.load parse .unreadable = .error "Failed to read gateway config") ∧
    (∀ s, parse s = none →
      GatewayConfig.load parse (.content s) = .error "Failed to parse gateway config") ∧
    (GatewayConfig.load parse .absent =
      .ok { port := 12345, enabled := true, providers := [], fallback_enabled := true }) := by
  refine ⟨rfl, ?_, rfl⟩
  intro s hs
  simp [GatewayConfig.load, hs]

theorem config_load_contract_witness :
    (GatewayConfig.load (fun _ => none) .unreadable =
      .error "Failed to read gateway config") ∧
    (GatewayConfig.load (fun _ => none) (.content "not json") =
      .error "Failed to parse gateway config") :=
  ⟨(config_load_contract (fun _ => none)).1,
   (config_load_contract (fun _ => none)).2.1 "not json" rfl⟩

/-- C5: the replace operation installs the new config in memory before the
disk write; a persistence failure is surfaced as an error but the in-memory
value stays replaced (no rollback), and a successful write returns ok. -/
theorem save_config_replaces_before_persist (mem new : GatewayConfig)
    (disk : Except String Unit) :
    (save_gateway_config mem new disk).1 = new ∧
    (∀ e, disk = .error e → (save_gateway_config mem new disk).2 = .error e) ∧
    (disk = .ok () → (save_gateway_config mem new disk).2 = .ok ()) := by
  refine ⟨?_, ?_, ?_⟩
  · cases disk <;> rfl
  · intro e he
    subst he
    rfl
  · intro h
    subst h
    rfl

theorem save_config_replaces_before_persist_witness :
    (save_gateway_config GatewayConfig.defaultConfig
      { port := 1, enabled := false, providers := [], fallback_enabled := false }
      (.error "disk full")).1 =
      { port := 1, enabled := false, providers := [], fallback_enabled := false } ∧
    (save_gateway_config GatewayConfig.defaultConfig
      { port := 1, enabled := false, providers := [], fallback_enabled := false }
      (.error "disk full")).2 = .error "disk full" :=
  ⟨(save_config_replaces_before_persist GatewayConfig.defaultConfig
      { port := 1, enabled := false, providers := [], fallback_enabled := false }
      (.error "disk full")).1,
   (save_config_replaces_before_persist GatewayConfig.defaultConfig
      { port := 1, enabled := false, providers := [], fallback_enabled := false }
      (.error "disk full")).2.1 "disk full" rfl⟩

/-- C10: `StatsManager::new` silently initializes from the all-zero default
aggregate when the stats file is unreadable or unparsable — its type cannot
even carry an error — unlike `GatewayConfig::load`, which returns an error in
the corresponding situations. -/
theorem stats_new_swallows_errors (parse : String → Option GatewayStats) :
    (StatsManager.new parse .unreadable = GatewayStats.defaultStats) ∧
    (∀ s, parse s = none →
      StatsManager.new parse (.content s) = GatewayStats.defaultStats) ∧
    (∀ parseCfg : String → Option GatewayConfig,
      GatewayConfig.load parseCfg .unreadable =
        .error "Failed to read gateway config") := by
  refine ⟨rfl, ?_, fun _ => rfl⟩
  intro s hs
  simp [StatsManager.new, hs]

theorem stats_new_swallows_errors_witness :
    (StatsManager.new (fun _ => none) .unreadable = GatewayStats.defaultStats) ∧
    (StatsManager.new (fun _ => none) (.content "garbage") = GatewayStats.defaultStats) :=
  ⟨(stats_new_swallows_errors (fun _ => none)).1,
   (stats_new_swallows_errors (fun _ => none)).2.1 "garbage" rfl⟩

/-! ## The proxy fallback loop (gateway/proxy.rs, handle_request)

An upstream attempt either yields an HTTP response or a transport error; the
environment is modelled by pairing each candidate provider with the outcome
its attempt would produce.  Header maps are modelled as association lists.
The nondeterministic log fields (uuid, clock, duration) are part of a fixed
`RequestContext`; `(body.len() as f64 / 4.0) as u32` equals `bodyLen / 4`
in `Nat` for all realistic body sizes (both are exact below 2^53). -/

/-- A response received from an upstream provider. -/
structure HttpResponse where
  status : Nat
  headers : List (String × String)
  body : String
deriving DecidableEq

/-- The outcome of one upstream send (proxy.rs:169). -/
inductive UpstreamOutcome where
  | response (resp : HttpResponse)
  | transportError (msg : String)
deriving DecidableEq

/-- The status carried by a `gateway://provider-status` event. -/
inductive EventStatus where
  | pending
  | success
  | error
deriving DecidableEq

/-- The `ProviderStatusEvent` payload (proxy.rs:67-71). -/
structure ProviderStatusEvent where
  provider_id : String
  status : EventStatus
deriving DecidableEq

/-- The per-request data the loop bodies read: path, user agent, buffered
body length, and the clock/duration values the log constructors use. -/
structure RequestContext where
  path : String
  user_agent : String
  bodyLen : Nat
  now : Nat
  duration_ms : Nat
deriving DecidableEq

/-- The fixed unit price `0.000002` of proxy.rs:220, as a rational. -/
def unit_price : ℚ := 2 / 1000000

/-- Fallback eligibility (proxy.rs:174-179): any 5xx, or one of 401, 402,
403, 410, 429. -/
def should_fallback (status : Nat) : Bool :=
  (decide (500 ≤ status) && decide (status < 600)) || status == 401 ||
    status == 402 || status == 403 || status == 410 || status == 429

/-- The log recorded when an attempt's status is fallback-eligible and the
loop moves on (proxy.rs:192-204): estimated input tokens, zero output
tokens, zero cost. -/
def fallback_log (ctx : RequestContext) (p : Provider) (status : Nat) : RequestLog :=
  { id := "", timestamp := ctx.now, provider := p.name, model := "unknown",
    status := status, duration_ms := ctx.duration_ms,
    input_tokens := ctx.bodyLen / 4, output_tokens := 0, cost := 0,
    path := ctx.path, client_agent := ctx.user_agent }

/-- The log recorded when a response is returned to the caller
(proxy.rs:216-234): estimated input tokens, zero output tokens, cost =
(input + output) × unit price. -/
def success_log (ctx : RequestContext) (p : Provider) (status : Nat) : RequestLog :=
  { id := "", timestamp := ctx.now, provider := p.name, model := "unknown",
    status := status, duration_ms := ctx.duration_ms,
    input_tokens := ctx.bodyLen / 4, output_tokens := 0,
    cost := ((ctx.bodyLen / 4 + 0 : Nat) : ℚ) * unit_price,
    path := ctx.path, client_agent := ctx.user_agent }

/-- The log recorded on a transport failure (proxy.rs:260-272): status 502,
zero tokens, zero cost. -/
def conn_fail_log (ctx : RequestContext) (p : Provider) : RequestLog :=
  { id := "", timestamp := ctx.now, provider := p.name, model := "unknown",
    status := 502, duration_ms := ctx.duration_ms,
    input_tokens := 0, output_tokens := 0, cost := 0,
    path := ctx.path, client_agent := ctx.user_agent }

/-- What a `handle_request` run produces: the response to the caller, the
RequestLogs recorded (in order), and the status events emitted (in order). -/
structure ProxyResult where
  response : HttpResponse
  logs : List RequestLog
  events : List ProviderStatusEvent
deriving DecidableEq

/-- The terminal 502 "All providers failed" response (proxy.rs:282). -/
def allFailedResponse : HttpResponse :=
  { status := 502, headers := [], body := "All providers failed" }

/-- The fallback loop of proxy.rs:131-282 over the candidates, each paired
with the outcome of its upstream attempt.  Per iteration: emit "pending";
on a response, either fall through (eligible status and fallback enabled:
emit "error", record a fallback log) or return the response verbatim (emit
"success", record a success log); on a transport error, emit "error" and
record a 502 log, then fall through only if fallback is enabled, else
return 502 with the transport message.  An exhausted loop returns the
generic 502. -/
def handle_loop (cfg : GatewayConfig) (ctx : RequestContext) :
    List (Provider × UpstreamOutcome) → ProxyResult
  | [] => { response := allFailedResponse, logs := [], events := [] }
  | (p, o) :: rest =>
      match o with
      | .response resp =>
          if should_fallback resp.status && cfg.fallback_enabled then
            let r := handle_loop cfg ctx rest
            { response := r.response,
              logs := fallback_log ctx p resp.status :: r.logs,
              events := ⟨p.id, .pending⟩ :: ⟨p.id, .error⟩ :: r.events }
          else
            { response := resp,
              logs := [success_log ctx p resp.status],
              events := [⟨p.id, .pending⟩, ⟨p.id, .success⟩] }
      | .transportError msg =>
          if cfg.fallback_enabled then
            let r := handle_loop cfg ctx rest
            { response := r.response,
              logs := conn_fail_log ctx p :: r.logs,
              events := ⟨p.id, .pending⟩ :: ⟨p.id, .error⟩ :: r.events }
          else
            { response := { status := 502, headers := [],
                            body := "Provider failed: " ++ msg },
              logs := [conn_fail_log ctx p],
              events := [⟨p.id, .pending⟩, ⟨p.id, .error⟩] }

/-- `str::starts_with` on the underlying character lists. -/
def charsStartWith : List Char → List Char → Bool
  | _, [] => true
  | [], _ :: _ => false
  | c :: cs, d :: ds => c == d && charsStartWith cs ds

/-- `str::contains` (substring test) on the underlying character lists. -/
def charsContain : List Char → List Char → Bool
  | [], t => t.isEmpty
  | c :: cs, t => charsStartWith (c :: cs) t || charsContain cs t

def str_contains (s t : String) : Bool := charsContain s.data t.data

def str_starts_with (s t : String) : Bool := charsStartWith s.data t.data

/-- `str::to_lowercase`, per character (the provider kinds and names matched
here are ASCII, where Rust's Unicode lowercasing agrees with `Char.toLower`). -/
def lowerStr (s : String) : String := ⟨s.data.map Char.toLower⟩

/-- The path-based provider-kind classification (proxy.rs:102-108). -/
def target_provider_type (path : String) : Option String :=
  if str_starts_with path "/v1/messages" then some "claude"
  else if str_starts_with path "/responses" then some "codex"
  else none

/-- The candidate filter (proxy.rs:111-118): enabled, and when a kind was
classified, name or id contains the kind substring case-insensitively. -/
def provider_matches (kind : Option String) (p : Provider) : Bool :=
  p.enabled &&
    match kind with
    | some k => str_contains (lowerStr p.name) k || str_contains (lowerStr p.id) k
    | none => true

/-- Candidate selection (proxy.rs:102-125): kind-filtered enabled providers,
falling back to all enabled providers when the filter yields nothing. -/
def candidate_providers (cfg : GatewayConfig) (path : String) : List Provider :=
  let filtered := cfg.providers.filter (provider_matches (target_provider_type path))
  if filtered.isEmpty then cfg.providers.filter Provider.enabled else filtered

/-- `handle_request` (proxy.rs:73-283) after the body has been buffered:
503 when the gateway is disabled (no logs, no events), 503 when no candidate
provider exists, otherwise the fallback loop over the candidates, where
`oracle i` is the outcome of the attempt against the i-th candidate. -/
def handle_request (cfg : GatewayConfig) (ctx : RequestContext)
    (oracle : Nat → UpstreamOutcome) : ProxyResult :=
  if !cfg.enabled then
    { response := { status := 503, headers := [], body := "Gateway is disabled" },
      logs := [], events := [] }
  else
    let candidates := candidate_providers cfg ctx.path
    if candidates.isEmpty then
      { response := { status := 503, headers := [], body := "No active providers" },
        logs := [], events := [] }
    else
      handle_loop cfg ctx (candidates.zip ((List.range candidates.length).map oracle))

/-! ### Event accounting helpers -/

/-- Number of "pending" events in a trace — one per attempted candidate. -/
def pendingCount (evs : List ProviderStatusEvent) : Nat :=
  (evs.filter (fun e => e.status == EventStatus.pending)).length

/-- Number of terminal ("success" or "error") events in a trace. -/
def terminalCount (evs : List ProviderStatusEvent) : Nat :=
  (evs.filter (fun e =>
    e.status == EventStatus.success || e.status == EventStatus.error)).length

/-- Every loop iteration records exactly one log and emits one "pending"
plus one terminal event, so the three counts agree on any run. -/
lemma handle_loop_accounting (cfg : GatewayConfig) (ctx : RequestContext) :
    ∀ attempts : List (Provider × UpstreamOutcome),
      (handle_loop cfg ctx attempts).logs.length =
        pendingCount (handle_loop cfg ctx attempts).events ∧
      terminalCount (handle_loop cfg ctx attempts).events =
        pendingCount (handle_loop cfg ctx attempts).events := by
  intro attempts
  induction attempts with
  | nil => simp [handle_loop, pendingCount, terminalCount]
  | cons a rest ih =>
      obtain ⟨p, o⟩ := a
      cases o with
      | response resp =>
          by_cases hf : should_fallback resp.status && cfg.fallback_enabled
          · simp [handle_loop, hf, pendingCount, terminalCount] at ih ⊢
            omega
          · simp [handle_loop, hf, pendingCount, terminalCount]
      | transportError msg =>
          by_cases hf : cfg.fallback_enabled
          · simp [handle_loop, hf, pendingCount, terminalCount] at ih ⊢
            omega
          · simp [handle_loop, hf, pendingCount, terminalCount]

/-- With fallback disabled the loop stops inside its first iteration,
whatever the outcome: on a response it returns it (the fallback test is
conjoined with the flag), on a transport error it returns 502. -/
lemma handle_loop_no_fallback (cfg : GatewayConfig) (ctx : RequestContext)
    (hfb : cfg.fallback_enabled = false) :
    ∀ attempts : List (Provider × UpstreamOutcome),
      (handle_loop cfg ctx attempts).logs.length ≤ 1 ∧
      pendingCount (handle_loop cfg ctx attempts).events ≤ 1 := by
  intro attempts
  match attempts with
  | [] => simp [handle_loop, pendingCount]
  | (p, .response resp) :: rest =>
      have h : (should_fallback resp.status && cfg.fallback_enabled) = false := by
        simp [hfb]
      simp [handle_loop, h, pendingCount]
  | (p, .transportError msg) :: rest =>
      simp [handle_loop, hfb, pendingCount]

/-- C6: with fallback disabled, at most one provider is attempted per
inbound request — at most one RequestLog is recorded and at most one
"pending" event is emitted — whether the attempt ends in a transport
failure or in any HTTP status. -/
theorem no_fallback_single_attempt (cfg : GatewayConfig) (ctx : RequestContext)
    (oracle : Nat → UpstreamOutcome) (hfb : cfg.fallback_enabled = false) :
    (handle_request cfg ctx oracle).logs.length ≤ 1 ∧
    pendingCount (handle_request cfg ctx oracle).events ≤ 1 := by
  unfold handle_request
  split
  · simp [pendingCount]
  · by_cases hc : (candidate_providers cfg ctx.path).isEmpty
    · simp [hc, pendingCount]
    · simp only [hc, if_neg, Bool.false_eq_true, not_false_iff]
      exact handle_loop_no_fallback cfg ctx hfb _

/-- C9: while the gateway's enabled flag is false every request is answered
503 "Gateway is disabled" with no RequestLog recorded and no status event
emitted. -/
theorem disabled_gateway_503 (cfg : GatewayConfig) (ctx : RequestContext)
    (oracle : Nat → UpstreamOutcome) (h : cfg.enabled = false) :
    handle_request cfg ctx oracle =
      { response := { status := 503, headers := [], body := "Gateway is disabled" },
        logs := [], events := [] } := by
  simp [handle_request, h]

/-! ### Concrete fixtures for counterexamples and witnesses -/

def exProvider : Provider :=
  { id := "a", name := "prov-one", base_url := "http://x", api_key := "",
    model_mapping := [], enabled := true }

def exProvider2 : Provider :=
  { id := "b", name := "prov-two", base_url := "http://y", api_key := "",
    model_mapping := [], enabled := true }

def exCtx : RequestContext :=
  { path := "/foo", user_agent := "unknown", bodyLen := 8, now := 0, duration_ms := 0 }

def exCfg : GatewayConfig :=
  { port := 12345, enabled := true, providers := [exProvider], fallback_enabled := true }

def exCfgNoFallback : GatewayConfig := { exCfg with fallback_enabled := false }

def exCfgDisabled : GatewayConfig := { exCfg with enabled := false }

def exResp503 : HttpResponse :=
  { status := 503, headers := [], body := "upstream overloaded" }

def exResp404 : HttpResponse :=
  { status := 404, headers := [("content-type", "text/plain")], body := "not found" }

def exResp200 : HttpResponse :=
  { status := 200, headers := [("content-type", "application/json")], body := "ok" }

theorem no_fallback_single_attempt_witness :
    (handle_request exCfgNoFallback exCtx
      (fun _ => UpstreamOutcome.transportError "connection refused")).logs.length ≤ 1 ∧
    pendingCount (handle_request exCfgNoFallback exCtx
      (fun _ => UpstreamOutcome.transportError "connection refused")).events ≤ 1 :=
  no_fallback_single_attempt exCfgNoFallback exCtx
    (fun _ => UpstreamOutcome.transportError "connection refused") rfl

theorem disabled_gateway_503_witness :
    handle_request exCfgDisabled exCtx (fun _ => UpstreamOutcome.response exResp200) =
      { response := { status := 503, headers := [], body := "Gateway is disabled" },
        logs := [], events := [] } :=
  disabled_gateway_503 exCfgDisabled exCtx (fun _ => UpstreamOutcome.response exResp200) rfl

/-! ### Claim C1 -/

/-- C1 (counterexample): the claim also promises the verbatim response when
"the candidate is the last one in the candidate list", but the code's
fallback test (proxy.rs:181) is only `should_fallback && fallback_enabled` —
it never checks whether candidates remain.  With one enabled provider,
fallback enabled, and the upstream answering 503, the caller does not get
the provider's 503 back; the loop falls through and returns the generic 502
"All providers failed". -/
theorem last_candidate_counterexample :
    (handle_request exCfg exCtx (fun _ => UpstreamOutcome.response exResp503)).response ≠
      exResp503 ∧
    (handle_request exCfg exCtx (fun _ => UpstreamOutcome.response exResp503)).response =
      allFailedResponse := by
  decide

/-- C1 (amended): when a candidate's response has a status that is not
fallback-eligible, or fallback is disabled, the handler returns that
response verbatim — same status, headers and body — recording one success
log and emitting "pending" then "success", terminating the loop even if the
status is an error code.  A last candidate whose status *is* eligible with
fallback enabled instead falls through, and the handler answers the generic
502 "All providers failed". -/
theorem response_returned_verbatim (cfg : GatewayConfig) (ctx : RequestContext)
    (p : Provider) (resp : HttpResponse) (rest : List (Provider × UpstreamOutcome)) :
    (should_fallback resp.status = false ∨ cfg.fallback_enabled = false →
      handle_loop cfg ctx ((p, UpstreamOutcome.response resp) :: rest) =
        { response := resp,
          logs := [success_log ctx p resp.status],
          events := [⟨p.id, EventStatus.pending⟩, ⟨p.id, EventStatus.success⟩] }) ∧
    (should_fallback resp.status = true → cfg.fallback_enabled = true →
      (handle_loop cfg ctx [(p, UpstreamOutcome.response resp)]).response =
        allFailedResponse) := by
  constructor
  · intro h
    have hc : (should_fallback resp.status && cfg.fallback_enabled) = false := by
      rcases h with h | h <;> simp [h]
    simp [handle_loop, hc]
  · intro h1 h2
    simp [handle_loop, h1, h2]

theorem response_returned_verbatim_witness :
    handle_loop exCfg exCtx [(exProvider, UpstreamOutcome.response exResp404)] =
      { response := exResp404,
        logs := [success_log exCtx exProvider 404],
        events := [⟨exProvider.id, EventStatus.pending⟩,
                   ⟨exProvider.id, EventStatus.success⟩] } ∧
    (handle_loop exCfg exCtx [(exProvider, UpstreamOutcome.response exResp503)]).response =
      allFailedResponse :=
  ⟨(response_returned_verbatim exCfg exCtx exProvider exResp404 []).1
      (Or.inl (by decide)),
   (response_returned_verbatim exCfg exCtx exProvider exResp503 []).2
      (by decide) rfl⟩

/-! ### Claim C2 -/

/-- The attempt list in which the first K candidates answer with
fallback-eligible statuses and candidate K+1 answers `resp`. -/
def eligible_then_success (front : List (Provider × HttpResponse)) (p : Provider)
    (resp : HttpResponse) (rest : List (Provider × UpstreamOutcome)) :
    List (Provider × UpstreamOutcome) :=
  front.map (fun pr => (pr.1, UpstreamOutcome.response pr.2)) ++
    (p, UpstreamOutcome.response resp) :: rest

/-- The event trace of such a run: a "pending"/"error" pair per failed
candidate, then "pending"/"success" for the accepted one. -/
def chain_events (front : List (Provider × HttpResponse)) (p : Provider) :
    List ProviderStatusEvent :=
  (front.map (fun pr =>
      [ProviderStatusEvent.mk pr.1.id EventStatus.pending,
       ProviderStatusEvent.mk pr.1.id EventStatus.error])).flatten ++
    [⟨p.id, EventStatus.pending⟩, ⟨p.id, EventStatus.success⟩]

lemma fallback_chain_core (cfg : GatewayConfig) (ctx : RequestContext)
    (p : Provider) (resp : HttpResponse) (rest : List (Provider × UpstreamOutcome))
    (hfb : cfg.fallback_enabled = true)
    (hresp : should_fallback resp.status = false) :
    ∀ front : List (Provider × HttpResponse),
      (∀ pr ∈ front, should_fallback pr.2.status = true) →
      handle_loop cfg ctx (eligible_then_success front p resp rest) =
        { response := resp,
          logs := front.map (fun pr => fallback_log ctx pr.1 pr.2.status) ++
            [success_log ctx p resp.status],
          events := chain_events front p } := by
  intro front
  induction front with
  | nil =>
      intro _
      simp [eligible_then_success, chain_events, handle_loop, hresp]
  | cons q qs ih =>
      intro hall
      have hq : should_fallback q.2.status = true := hall q (by simp)
      have hrec := ih (fun pr hpr => hall pr (by simp [hpr]))
      simp only [eligible_then_success, List.map_cons, List.cons_append] at hrec ⊢
      simp [handle_loop, hq, hfb, hrec, chain_events]

lemma chain_event_counts (p : Provider) :
    ∀ front : List (Provider × HttpResponse),
      pendingCount (chain_events front p) = front.length + 1 ∧
      terminalCount (chain_events front p) = front.length + 1 := by
  intro front
  induction front with
  | nil => simp [chain_events, pendingCount, terminalCount]
  | cons q qs ih =>
      simp [chain_events, pendingCount, terminalCount, List.filter_append] at ih ⊢
      omega

/-- C2: with fallback enabled, if the first K candidates answer
fallback-eligible statuses and candidate K+1 answers a non-eligible status,
the run records exactly K+1 RequestLogs (one per attempted candidate) and
the caller receives candidate K+1's status, headers and body unchanged; the
event trace is one "pending"/"error" pair per failed candidate plus a final
"pending"/"success" pair, so K+1 pending and K+1 terminal events; and on
*any* run of the loop, the number of logs equals the number of "pending"
events equals the number of terminal events — one pair per attempt. -/
theorem per_attempt_accounting (cfg : GatewayConfig) (ctx : RequestContext)
    (front : List (Provider × HttpResponse)) (p : Provider) (resp : HttpResponse)
    (rest : List (Provider × UpstreamOutcome))
    (hfb : cfg.fallback_enabled = true)
    (hfront : ∀ pr ∈ front, should_fallback pr.2.status = true)
    (hresp : should_fallback resp.status = false) :
    (handle_loop cfg ctx (eligible_then_success front p resp rest)).response = resp ∧
    (handle_loop cfg ctx (eligible_then_success front p resp rest)).logs =
      front.map (fun pr => fallback_log ctx pr.1 pr.2.status) ++
        [success_log ctx p resp.status] ∧
    (handle_loop cfg ctx (eligible_then_success front p resp rest)).logs.length =
      front.length + 1 ∧
    (handle_loop cfg ctx (eligible_then_success front p resp rest)).events =
      chain_events front p ∧
    pendingCount (handle_loop cfg ctx (eligible_then_success front p resp rest)).events =
      front.length + 1 ∧
    terminalCount (handle_loop cfg ctx (eligible_then_success front p resp rest)).events =
      front.length + 1 ∧
    (∀ attempts : List (Provider × UpstreamOutcome),
      (handle_loop cfg ctx attempts).logs.length =
        pendingCount (handle_loop cfg ctx attempts).events ∧
      terminalCount (handle_loop cfg ctx attempts).events =
        pendingCount (handle_loop cfg ctx attempts).events) := by
  have hcore := fallback_chain_core cfg ctx p resp rest hfb hresp front hfront
  have hcounts := chain_event_counts p front
  rw [hcore]
  refine ⟨rfl, rfl, by simp, rfl, hcounts.1, hcounts.2, handle_loop_accounting cfg ctx⟩

theorem per_attempt_accounting_witness :
    (handle_loop exCfg exCtx
      (eligible_then_success [(exProvider2, exResp503)] exProvider exResp200 [])).response =
      exResp200 ∧
    (handle_loop exCfg exCtx
      (eligible_then_success [(exProvider2, exResp503)] exProvider exResp200 [])).logs.length =
      2 :=
  ⟨(per_attempt_accounting exCfg exCtx [(exProvider2, exResp503)] exProvider exResp200 []
      rfl (by decide) (by decide)).1,
   (per_attempt_accounting exCfg exCtx [(exProvider2, exResp503)] exProvider exResp200 []
      rfl (by decide) (by decide)).2.2.1⟩

end VibeHub
